import Mathlib

/-!
Verification of the process-lifecycle and output-capture core of the
cmdeck command launcher (src/main.go), against its natural-language
specification.

The source file contains two incremental versions of the same Go
program.  Version 2 (the later one) is the authority for most claims;
version 1 is embedded where a claim compares the two.

Shallow embedding notes:
* A Go `ProcessState` becomes a Lean structure; the `*exec.Cmd` and
  `*os.Process` pointers are abstracted to presence bits (`cmdPresent`,
  `procPresent`), since the only thing the program does with them is a
  nil check before `Kill()`.
* The global `processStates` map becomes a function
  `String → Option ProcessState` with the lazy-creation and update
  operations the code performs.
* The concurrent run of a process (two capture goroutines plus the
  waiter goroutine) is modelled as the deterministic schedule in which
  all captured output lines land before the waiter observes exit, which
  is the ordering the specification's §5 guarantees for a settled run.
  Intermediate states of a run are exposed as a trace so that
  transiently observable states (after the `fyne.Do` notification that
  follows `Running = true`) can be reasoned about.
-/

namespace Cmdeck

/-- A command from the YAML configuration: `Exec` and `Args`
(src/main.go, `type Command`). -/
structure Command where
  exec : String
  args : List String
deriving DecidableEq, Repr

/-- The mutable per-command state (src/main.go v2, `type ProcessState`).
`cmdPresent` models `Cmd != nil`, `procPresent` models
`Cmd.Process != nil`; `output` is the log. -/
structure ProcessState where
  cmdPresent : Bool
  procPresent : Bool
  running : Bool
  hasRun : Bool
  output : List String
deriving DecidableEq, Repr

/-- Go `fmt`'s `%v` rendering of a `[]string`: elements space-separated
inside square brackets. -/
def goFmtArgs (args : List String) : String :=
  "[" ++ String.intercalate " " args ++ "]"

/-- The description string built in `convertConfigToTabsData`:
`fmt.Sprintf("%s %v", command.Exec, command.Args)`. -/
def descriptionOf (c : Command) : String :=
  c.exec ++ " " ++ goFmtArgs c.args

/-- A UI row (src/main.go, `type RowData`). -/
structure RowData where
  title : String
  description : String
  command : Command
deriving DecidableEq, Repr

/-- Row construction in `convertConfigToTabsData` (v2, lines 445-453):
the row for command `cmdName` of tab `tabName` carries the command name
as title and the formatted description.  The tab name is not stored in
the row. -/
def mkRow (tabName cmdName : String) (c : Command) : RowData :=
  { title := cmdName, description := descriptionOf c, command := c }

/-- The registry key built in `createRowWidget` (v2, line 476):
`fmt.Sprintf("%s-%s", row.Title, row.Description)`. -/
def processKeyOf (row : RowData) : String :=
  row.title ++ "-" ++ row.description

/-- The state a handle is created with in `createRowWidget` (v2, lines
477-481): zero-valued fields except the sentinel log line. -/
def initialState : ProcessState :=
  { cmdPresent := false
    procPresent := false
    running := false
    hasRun := false
    output := ["No logs available. Run the process to see logs."] }

/-- The global registry `processStates` (v2, line 399), as a partial
map from process key to handle. -/
abbrev Registry := String → Option ProcessState

/-- Lazy handle creation in `createRowWidget` (v2, lines 477-481): a
handle is created only when the key has no entry yet. -/
def getOrCreate (k : String) (r : Registry) : Registry :=
  match r k with
  | some _ => r
  | none => fun q => if q = k then some initialState else r q

/-- Update the handle stored at key `k`, leaving every other entry of
the registry untouched (the locking discipline of the code: each
mutation touches one handle). -/
def updateAt (k : String) (f : ProcessState → ProcessState) (r : Registry) : Registry :=
  fun q => if q = k then (r q).map f else r q

/-- The line `captureOutput` (v2, lines 613-618) puts in front of a
captured line: empty for stdout, `"ERR: "` for stderr. -/
def lineTag (isStderr : Bool) : String :=
  if isStderr then "ERR: " else ""

/-- One iteration of the scan loop of `captureOutput` (v2, lines
605-620): append the tagged line to the handle's log. -/
def captureAppend (isStderr : Bool) (line : String) (s : ProcessState) : ProcessState :=
  { s with output := s.output ++ [lineTag isStderr ++ line] }

/-- The scanner-error branch of `captureOutput` (v2, lines 622-630):
append a diagnostic line built from the underlying error text. -/
def captureErrAppend (e : String) (s : ProcessState) : ProcessState :=
  { s with output := s.output ++ ["Error reading output: " ++ e] }

/-- The first log line of a run (v2, line 525):
`fmt.Sprintf("Starting process: %s %v", row.Command.Exec, row.Command.Args)`. -/
def startLine (c : Command) : String :=
  "Starting process: " ++ c.exec ++ " " ++ goFmtArgs c.args

/-- The first locked section of the start branch of
`actionButton.OnTapped` (v2, lines 524-527): the log is reset to the
starting marker and `HasRun` is set, before any pipe is created. -/
def startPhase1 (c : Command) (s : ProcessState) : ProcessState :=
  { s with output := [startLine c], hasRun := true }

/-- The second locked section of the start branch (v2, lines 546-549):
`state.Cmd = cmd; state.Running = true`.  Runs only after both pipes
were created. -/
def markStarted (s : ProcessState) : ProcessState :=
  { s with cmdPresent := true, running := true }

/-- Outcome of the two pipe creations in the start branch: both
succeed, or `cmd.StdoutPipe()` fails, or `cmd.StderrPipe()` fails, with
the OS error text. -/
inductive PipeOutcome where
  | ok
  | stdoutFail (e : String)
  | stderrFail (e : String)
deriving DecidableEq, Repr

/-- The synchronous part of the start branch of `actionButton.OnTapped`
(v2, lines 523-551): reset the log and set `HasRun`, then either append
a pipe-creation diagnostic and return (leaving `Running` untouched), or
store the command and set `Running`. -/
def startSync (c : Command) (po : PipeOutcome) (s : ProcessState) : ProcessState :=
  let s1 := startPhase1 c s
  match po with
  | .stdoutFail e => { s1 with output := s1.output ++ ["Error creating stdout pipe: " ++ e] }
  | .stderrFail e => { s1 with output := s1.output ++ ["Error creating stderr pipe: " ++ e] }
  | .ok => markStarted s1

/-- The waiter goroutine body (v2, lines 554-566): after `cmd.Run()`
returns, set `Running = false` and append the success marker or the
error description.  `err = none` models a zero exit status. -/
def waiterExit (err : Option String) (s : ProcessState) : ProcessState :=
  { s with
    running := false
    output := s.output ++
      [match err with
       | some e => "Process exited with error: " ++ e
       | none => "Process completed successfully"] }

/-- Result of a stop request: the new handle state, whether `Kill()`
was invoked, and whether a state-change notification (`fyne.Do`) was
emitted. -/
structure StopResult where
  state : ProcessState
  killed : Bool
  notified : Bool
deriving DecidableEq, Repr

/-- The stop branch of `actionButton.OnTapped` (v2, lines 515-522),
together with the dispatch guard `if state.Running`: when the handle is
running, kill the OS process if both `Cmd` and `Cmd.Process` are
non-nil, set `Running = false`, and notify (`fyne.Do`); when the handle
is not running the stop body is never executed, so nothing happens and
nothing is notified. -/
def stop (s : ProcessState) : StopResult :=
  if s.running then
    { state := { s with running := false }
      killed := s.cmdPresent && s.procPresent
      notified := true }
  else
    { state := s, killed := false, notified := false }

/-- The snapshot taken by `logsButton.OnTapped` (v2, lines 569-576):
`make([]string, len(state.Output))` followed by `copy`, modelled as an
element-wise copy of the log. -/
def copySeq : List String → List String
  | [] => []
  | x :: xs => x :: copySeq xs

def getLogs (s : ProcessState) : List String :=
  copySeq s.output

/-- States after each captured line, in capture order. -/
def captureTrace : List (Bool × String) → ProcessState → List ProcessState
  | [], _ => []
  | (b, l) :: rest, s =>
    let s1 := captureAppend b l s
    s1 :: captureTrace rest s1

/-- The final state of a full run that got past pipe creation: start
(phase 1 and `Running = true`), all captured lines, then the waiter's
exit handling.  `lines` carries each captured line with its stream
(`true` = stderr); `err = none` models exit status 0. -/
def runCommand (c : Command) (lines : List (Bool × String)) (err : Option String)
    (s : ProcessState) : ProcessState :=
  let m := markStarted (startPhase1 c s)
  waiterExit err ((captureTrace lines m).getLastD m)

/-- The observable states of such a run, in order: after phase 1, after
`Running = true` (the point at which `fyne.Do(updateButtonState)` shows
the handle as running), after each captured line, and after the waiter
finishes. -/
def runTrace (c : Command) (lines : List (Bool × String)) (err : Option String)
    (s : ProcessState) : List ProcessState :=
  let p := startPhase1 c s
  let m := markStarted p
  p :: m :: (captureTrace lines m ++ [waiterExit err ((captureTrace lines m).getLastD m)])

/-- Lines appended by `captureOutput` of version 1 (lines 298-322) for
a stream that yields `lines` and then ends with `readErr` (`none` =
clean end of stream): stdout lines get the `"OUT: "` tag, stderr lines
get `"ERR: "`, and a read error is only printed to the console, never
appended to the log. -/
def captureLinesV1 (isStderr : Bool) (lines : List String) (readErr : Option String) :
    List String :=
  lines.map (fun l => (if isStderr then "ERR: " else "OUT: ") ++ l)

/-- Lines appended by `captureOutput` of version 2 (lines 601-631) for
the same stream: stdout lines get no tag, stderr lines get `"ERR: "`,
and a read error appends a diagnostic line. -/
def captureLinesV2 (isStderr : Bool) (lines : List String) (readErr : Option String) :
    List String :=
  lines.map (fun l => lineTag isStderr ++ l) ++
    (match readErr with
     | none => []
     | some e => ["Error reading output: " ++ e])

/-- The handle invariant of the specification: a running handle has
been run. -/
def inv (s : ProcessState) : Prop :=
  s.running = true → s.hasRun = true

instance (s : ProcessState) : Decidable (inv s) := by
  unfold inv; infer_instance

/-- The per-handle operations named by the specification, as performed
by the code: start (the synchronous branch, any pipe outcome), stop,
a capture append, a capture read-error append, and the waiter's exit
handling. -/
inductive Op where
  | start (c : Command) (po : PipeOutcome)
  | stop
  | capture (isStderr : Bool) (line : String)
  | captureErr (e : String)
  | waiter (err : Option String)

def applyOp : Op → ProcessState → ProcessState
  | .start c po => startSync c po
  | .stop => fun s => (Cmdeck.stop s).state
  | .capture b l => captureAppend b l
  | .captureErr e => captureErrAppend e
  | .waiter err => waiterExit err

/-- The full effect on the registry of a start whose spawn fails (v2):
the synchronous start branch succeeds (both pipes open, `Running` set),
and the waiter goroutine observes `cmd.Run()` returning the spawn error
`e`, records it and clears `Running`.  Only the entry at key `k` is
touched. -/
def startFailRun (k : String) (c : Command) (e : String) (r : Registry) : Registry :=
  updateAt k (fun s => waiterExit (some e) (startSync c .ok s)) r

/-- A one-entry registry used to instantiate registry-level theorems. -/
def sampleReg : Registry :=
  fun x => if x = "k1" then some initialState else none

/-- Number of adjacent `true → false` transitions in a sequence of
boolean observations. -/
def downs : List Bool → Nat
  | [] => 0
  | [_] => 0
  | a :: b :: rest => (if a && !b then 1 else 0) + downs (b :: rest)

/-- Number of adjacent `false → true` transitions in a sequence of
boolean observations. -/
def ups : List Bool → Nat
  | [] => 0
  | [_] => 0
  | a :: b :: rest => (if !a && b then 1 else 0) + ups (b :: rest)

/-- The element-wise copy reproduces the list it copies. -/
lemma copySeq_eq (xs : List String) : copySeq xs = xs := by
  induction xs with
  | nil => rfl
  | cons x t ih => simp [copySeq, ih]

/-- Capture appends never change the `running` flag, so the states of a
capture trace all carry the flag of the state the trace started from. -/
lemma captureTrace_running (ls : List (Bool × String)) (s : ProcessState) :
    (captureTrace ls s).map (fun t => t.running) = List.replicate ls.length s.running := by
  induction ls generalizing s with
  | nil => simp [captureTrace]
  | cons hd tl ih =>
    obtain ⟨b, l⟩ := hd
    simp [captureTrace, captureAppend, ih, List.replicate_succ]

/-- The `running` observations of a full run: the flag the handle
started with, then `true` from the moment the start branch sets
`Running` through every captured line, then `false` once the waiter
finishes. -/
lemma runTrace_running (c : Command) (lines : List (Bool × String)) (err : Option String)
    (s : ProcessState) :
    (runTrace c lines err s).map (fun t => t.running) =
      s.running :: true :: (List.replicate lines.length true ++ [false]) := by
  simp [runTrace, captureTrace_running, startPhase1, markStarted, waiterExit]

lemma downs_true_block (n : Nat) :
    downs (true :: (List.replicate n true ++ [false])) = 1 := by
  induction n with
  | zero => simp [downs]
  | succ k ih => simp [List.replicate_succ, downs, ih]

lemma ups_true_block (n : Nat) :
    ups (true :: (List.replicate n true ++ [false])) = 0 := by
  induction n with
  | zero => simp [ups]
  | succ k ih => simp [List.replicate_succ, ups, ih]

/-- C1: for the command `echo hello`, after start and completion with
exit status 0, the log is exactly
`["Starting process: echo [hello]", "hello", "Process completed successfully"]`
(the stdout line carries an empty tag) and the handle is not running. -/
theorem echo_hello_end_to_end :
    getLogs (runCommand ⟨"echo", ["hello"]⟩ [(false, "hello")] none initialState) =
      ["Starting process: echo [hello]", "hello", "Process completed successfully"] ∧
    (runCommand ⟨"echo", ["hello"]⟩ [(false, "hello")] none initialState).running = false := by
  constructor <;> rfl

/-- C2 counterexample: the registry key is built from the row title
(command name) and description only; the tab (category) name is
discarded by row construction, so the rows for two commands with the
same name, executable and arguments in the distinct categories "A" and
"B" get the same key, hence the same Process Handle — refuting the
claim that distinct categories yield distinct identities. -/
theorem category_identity_counterexample :
    ("A" : String) ≠ "B" ∧
    processKeyOf (mkRow "A" "build" ⟨"make", []⟩) =
      processKeyOf (mkRow "B" "build" ⟨"make", []⟩) :=
  ⟨by decide, rfl⟩

/-- C2 amended: the identity under which a handle is stored is the
command name joined by "-" with the command's description (executable
and formatted arguments); the category is not part of the identity, so
the same command under any two categories maps to the same key. -/
theorem identity_ignores_category (tabA tabB cmdName : String) (c : Command) :
    processKeyOf (mkRow tabA cmdName c) = cmdName ++ "-" ++ descriptionOf c ∧
    processKeyOf (mkRow tabA cmdName c) = processKeyOf (mkRow tabB cmdName c) :=
  ⟨rfl, rfl⟩

/-- C3: every per-handle operation (start with any pipe outcome, stop,
capture append, capture read-error append, waiter exit) preserves the
invariant `running = true → hasRun = true`, none of them resets
`hasRun` from true to false, the state a handle is created with
satisfies the invariant, and lazy creation leaves every existing
registry entry untouched (creating only absent ones, with the initial
state). -/
theorem ops_preserve_inv (op : Op) (s : ProcessState) (hinv : inv s) :
    inv (applyOp op s) ∧
    (s.hasRun = true → (applyOp op s).hasRun = true) ∧
    inv initialState ∧
    (∀ (k q : String) (r : Registry),
      getOrCreate k r q = r q ∨ (r q = none ∧ getOrCreate k r q = some initialState)) := by
  refine ⟨?_, ?_, ?_, ?_⟩
  · cases op with
    | start c po => cases po <;> intro _ <;> rfl
    | stop =>
      intro hr
      by_cases hs : s.running
      · simp [applyOp, Cmdeck.stop, hs] at hr
      · simp [applyOp, Cmdeck.stop, hs] at hr
    | capture b l => intro hr; exact hinv hr
    | captureErr e => intro hr; exact hinv hr
    | waiter err => intro hr; simp [applyOp, waiterExit] at hr
  · intro hhr
    cases op with
    | start c po => cases po <;> rfl
    | stop => by_cases hs : s.running <;> simp [applyOp, Cmdeck.stop, hs, hhr]
    | capture b l => exact hhr
    | captureErr e => exact hhr
    | waiter err => exact hhr
  · intro hr; simp [initialState] at hr
  · intro k q r
    unfold getOrCreate
    cases hrk : r k with
    | some v => exact Or.inl rfl
    | none =>
      by_cases hq : q = k
      · subst hq; exact Or.inr ⟨hrk, by simp⟩
      · exact Or.inl (by simp [hq])

theorem ops_preserve_inv_witness :
    inv (applyOp Op.stop initialState) ∧
    (initialState.hasRun = true → (applyOp Op.stop initialState).hasRun = true) ∧
    inv initialState ∧
    (∀ (k q : String) (r : Registry),
      getOrCreate k r q = r q ∨ (r q = none ∧ getOrCreate k r q = some initialState)) :=
  ops_preserve_inv Op.stop initialState (by decide)

/-- C4 counterexample: in version 2 the start branch sets
`Running = true` and notifies the observer before the waiter goroutine
ever calls `cmd.Run()`, so for a command whose spawn fails the
observable `running` flags of the run are `false, true, false` — the
handle IS observed with `running = true`, refuting the claim that it
never is. -/
theorem spawn_fail_transiently_running :
    (runTrace ⟨"/bin/nonexistent", []⟩ []
        (some "fork/exec /bin/nonexistent: no such file or directory") initialState).map
      (fun t => t.running) = [false, true, false] :=
  rfl

/-- C4 amended: a start whose spawn fails records the literal failure
text as a line in that command's own log, the handle settles with
`running = false` once the waiter observes the failure (though it is
transiently `running = true` between launch and that observation), and
no other command's registry entry is affected. -/
theorem spawn_fail_recorded (k q : String) (c : Command) (e : String) (r : Registry)
    (s : ProcessState) (hq : q ≠ k) (hk : r k = some s) :
    startFailRun k c e r q = r q ∧
    startFailRun k c e r k = some
      { cmdPresent := true, procPresent := s.procPresent, running := false, hasRun := true,
        output := [startLine c, "Process exited with error: " ++ e] } := by
  constructor
  · simp [startFailRun, updateAt, hq]
  · simp [startFailRun, updateAt, hk, startSync, startPhase1, markStarted, waiterExit]

theorem spawn_fail_recorded_witness :
    startFailRun "k1" ⟨"make", []⟩ "boom" sampleReg "q2" = sampleReg "q2" ∧
    startFailRun "k1" ⟨"make", []⟩ "boom" sampleReg "k1" = some
      { cmdPresent := true, procPresent := initialState.procPresent, running := false,
        hasRun := true,
        output := [startLine ⟨"make", []⟩, "Process exited with error: " ++ "boom"] } :=
  spawn_fail_recorded "k1" "q2" ⟨"make", []⟩ "boom" sampleReg initialState (by decide) rfl

/-- C5 counterexample: `HasRun` is set to true in the first locked
section of the start branch, before any pipe is created, so a start
abandoned by a stdout-pipe failure does affect `hasRun`: on a fresh
handle it flips it from false to true — refuting the claim that
`hasRun` is not affected by the abandoned attempt. -/
theorem pipe_fail_sets_hasRun :
    initialState.hasRun = false ∧
    (startSync ⟨"make", []⟩ (.stdoutFail "boom") initialState).hasRun = true :=
  ⟨rfl, rfl⟩

/-- C5 amended: if creating the stdout or stderr stream fails during
start, a diagnostic line is appended to the handle's log (after the
starting marker the attempt already wrote) and the handle is left with
`running = false`; however `hasRun` has already been set to true at the
beginning of the attempt, so an abandoned start does set it. -/
theorem pipe_fail_diagnostic (c : Command) (e : String) (s : ProcessState)
    (h : s.running = false) :
    (startSync c (.stdoutFail e) s).running = false ∧
    (startSync c (.stdoutFail e) s).output =
      [startLine c, "Error creating stdout pipe: " ++ e] ∧
    (startSync c (.stdoutFail e) s).hasRun = true ∧
    (startSync c (.stderrFail e) s).running = false ∧
    (startSync c (.stderrFail e) s).output =
      [startLine c, "Error creating stderr pipe: " ++ e] ∧
    (startSync c (.stderrFail e) s).hasRun = true :=
  ⟨h, rfl, rfl, h, rfl, rfl⟩

theorem pipe_fail_diagnostic_witness :
    (startSync ⟨"make", []⟩ (.stdoutFail "boom") initialState).running = false ∧
    (startSync ⟨"make", []⟩ (.stdoutFail "boom") initialState).output =
      [startLine ⟨"make", []⟩, "Error creating stdout pipe: " ++ "boom"] ∧
    (startSync ⟨"make", []⟩ (.stdoutFail "boom") initialState).hasRun = true ∧
    (startSync ⟨"make", []⟩ (.stderrFail "boom") initialState).running = false ∧
    (startSync ⟨"make", []⟩ (.stderrFail "boom") initialState).output =
      [startLine ⟨"make", []⟩, "Error creating stderr pipe: " ++ "boom"] ∧
    (startSync ⟨"make", []⟩ (.stderrFail "boom") initialState).hasRun = true :=
  pipe_fail_diagnostic ⟨"make", []⟩ "boom" initialState rfl

/-- C6: a stop request against a handle that is not running is a no-op:
the dispatch guard sends a tap to the start branch instead, so the stop
body never executes — the state (log included) is unchanged, no kill is
attempted, and no state-change notification is emitted. -/
theorem stop_not_running_noop (s : ProcessState) (h : s.running = false) :
    (stop s).state = s ∧ (stop s).notified = false ∧ (stop s).killed = false := by
  simp [stop, h]

theorem stop_not_running_noop_witness :
    (stop initialState).state = initialState ∧
    (stop initialState).notified = false ∧
    (stop initialState).killed = false :=
  stop_not_running_noop initialState rfl

/-- C7: `getLogs` copies the log element by element, so its result
equals the log value at the time of the call — two consecutive calls
with no intervening mutation return equal sequences — and a later
capture append produces a new log that strictly extends the returned
snapshot (which, being a value independent of the handle, is never
mutated by the append). -/
theorem getLogs_snapshot (s : ProcessState) (b : Bool) (l : String) :
    getLogs s = s.output ∧
    getLogs (captureAppend b l s) = getLogs s ++ [lineTag b ++ l] := by
  refine ⟨copySeq_eq _, ?_⟩
  simp [getLogs, captureAppend, copySeq_eq]

/-- C8: for a run whose process exits with status 0, the last log line
after the run settles is the success marker, the handle ends not
running, and over the whole observation sequence the `running` flag
falls from true to false exactly once and rises exactly once (at the
start), so it never reverts to true without a new start. -/
theorem success_run_final_marker (c : Command) (lines : List (Bool × String))
    (s : ProcessState) (h : s.running = false) :
    (runCommand c lines none s).output.getLast? = some "Process completed successfully" ∧
    (runCommand c lines none s).running = false ∧
    downs (s.running :: (runTrace c lines none s).map (fun t => t.running)) = 1 ∧
    ups (s.running :: (runTrace c lines none s).map (fun t => t.running)) = 1 := by
  refine ⟨?_, rfl, ?_, ?_⟩
  · have hout : (runCommand c lines none s).output =
        ((captureTrace lines (markStarted (startPhase1 c s))).getLastD
            (markStarted (startPhase1 c s))).output ++
          ["Process completed successfully"] := rfl
    rw [hout, List.getLast?_append_cons]
    rfl
  · rw [runTrace_running, h]
    simp [downs, downs_true_block]
  · rw [runTrace_running, h]
    simp [ups, ups_true_block]

theorem success_run_final_marker_witness :
    (runCommand ⟨"echo", ["hi"]⟩ [(false, "hi")] none initialState).output.getLast? =
      some "Process completed successfully" ∧
    (runCommand ⟨"echo", ["hi"]⟩ [(false, "hi")] none initialState).running = false ∧
    downs (initialState.running ::
      (runTrace ⟨"echo", ["hi"]⟩ [(false, "hi")] none initialState).map
        (fun t => t.running)) = 1 ∧
    ups (initialState.running ::
      (runTrace ⟨"echo", ["hi"]⟩ [(false, "hi")] none initialState).map
        (fun t => t.running)) = 1 :=
  success_run_final_marker ⟨"echo", ["hi"]⟩ [(false, "hi")] initialState rfl

/-- C9 counterexample: for the same stdout stream content `["hello"]`
with a clean end of stream, version 1's `captureOutput` appends
`["OUT: hello"]` while version 2's appends `["hello"]` — the two
versions are not behaviourally equivalent on output capture. -/
theorem capture_versions_differ :
    captureLinesV1 false ["hello"] none ≠ captureLinesV2 false ["hello"] none := by
  decide

/-- C9 amended: the two versions agree exactly on stderr content
captured without a read error; they differ on stdout — version 1 tags
lines with "OUT: " where version 2 uses the empty tag fixed by the
specification — and on a mid-read error, which version 1 only prints to
the console while version 2 appends as a diagnostic log line. -/
theorem capture_versions_relation (ls : List String) (l e : String) :
    captureLinesV1 true ls none = captureLinesV2 true ls none ∧
    captureLinesV1 false [l] none = ["OUT: " ++ l] ∧
    captureLinesV2 false [l] none = [l] ∧
    captureLinesV1 true [] (some e) = [] ∧
    captureLinesV2 true [] (some e) = ["Error reading output: " ++ e] := by
  refine ⟨?_, rfl, ?_, rfl, rfl⟩
  · simp [captureLinesV1, captureLinesV2, lineTag]
  · simp [captureLinesV2, lineTag]

/-- C10: stopping a running handle mutates only the `running` flag —
log, `hasRun` and the command/process references are untouched — and
the kill is guarded by the nil checks on `Cmd` and `Cmd.Process`, so on
a handle whose references are absent the stop still completes, marking
the handle not running without attempting a kill. -/
theorem stop_running_frame (s : ProcessState) (h : s.running = true) :
    (stop s).state.output = s.output ∧
    (stop s).state.hasRun = s.hasRun ∧
    (stop s).state.cmdPresent = s.cmdPresent ∧
    (stop s).state.procPresent = s.procPresent ∧
    (stop s).state.running = false ∧
    ((stop s).killed = true ↔ (s.cmdPresent = true ∧ s.procPresent = true)) ∧
    (stop s).notified = true := by
  simp [stop, h]

theorem stop_running_frame_witness :
    (stop ⟨false, false, true, true, ["x"]⟩).state.output =
      (⟨false, false, true, true, ["x"]⟩ : ProcessState).output ∧
    (stop ⟨false, false, true, true, ["x"]⟩).state.hasRun =
      (⟨false, false, true, true, ["x"]⟩ : ProcessState).hasRun ∧
    (stop ⟨false, false, true, true, ["x"]⟩).state.cmdPresent =
      (⟨false, false, true, true, ["x"]⟩ : ProcessState).cmdPresent ∧
    (stop ⟨false, false, true, true, ["x"]⟩).state.procPresent =
      (⟨false, false, true, true, ["x"]⟩ : ProcessState).procPresent ∧
    (stop ⟨false, false, true, true, ["x"]⟩).state.running = false ∧
    ((stop ⟨false, false, true, true, ["x"]⟩).killed = true ↔
      ((⟨false, false, true, true, ["x"]⟩ : ProcessState).cmdPresent = true ∧
        (⟨false, false, true, true, ["x"]⟩ : ProcessState).procPresent = true)) ∧
    (stop ⟨false, false, true, true, ["x"]⟩).notified = true :=
  stop_running_frame ⟨false, false, true, true, ["x"]⟩ rfl

end Cmdeck
